import Mathlib

/-!
Shallow embedding of the ingestion/validation core of `neo4j-runway`:

* `src/neo4j_runway/utils/dataframe_loader.py`
  (`DataFramePackage.from_file`, `_get_columns`, `_get_file_type`,
  `_load_file`, `_get_pandas_load_method`)
* `src/neo4j_runway/inputs/user_input.py`
  (`UserInput`, `user_input_safe_construct`)
* `src/neo4j_runway/utils/data/table.py` (`Table.discovery` property)

Conventions of the embedding:

* Python exceptions are values of `PyError`; fallible code returns
  `Except PyError _`.
* A Python `dict` is a `PyDict`, an association list whose keys are unique
  and kept in insertion order; `pyGet`, `pyDelete` and `pyDictOfList`
  mirror lookup, `del` and dict-comprehension semantics.
* A source file on disk is a `File`: its path string and its parsed
  content.  A `FileData.csv rows` value stands for a file whose path ends
  in `.csv` and whose text, split at the field delimiter in use, yields
  `rows`; a `FileData.json keys` value stands for a file whose path ends
  in `.json` and whose text decodes to a top-level JSON object with
  `keys`.  The suffix dispatch of `_get_file_type` is thereby resolved by
  the constructor; a path with an unrecognized suffix (the
  `UnsupportedFileType` branch) is outside the embedded domain, as no
  claim mentions it.
* `pandas` is external to the repository.  `pd_read_csv`/`pd_read_json`
  model the documented behaviour the loader relies on: the column
  structure of the result, the `usecols` restriction with its
  `ValueError` on unknown names, the `EmptyDataError` on an empty file,
  and the tokenizer `ParserError` raised when a data row carries more
  fields than the header.  Row contents and dtype logic are not needed by
  any claim and a `DataFrame` is modelled by its ordered column list.
-/

namespace Runway

/-- Python exception values raised by the embedded code. -/
inductive PyError where
  | valueError (msg : String)
  | keyError (key : String)
  | typeError (msg : String)
  | assertionError
  | parserError (msg : String)
  | emptyDataError (msg : String)
deriving DecidableEq

/-- A Python `dict` with string keys and values: an association list in
insertion order with unique keys.  Theorems restrict to the unique-key
domain where it matters. -/
abbrev PyDict := List (String × String)

/-- Python `d.get(k)` / `d[k]`: value of the first entry with key `k`. -/
def pyGet (d : PyDict) (k : String) : Option String :=
  (d.find? (fun p => decide (p.1 = k))).map Prod.snd

/-- Python `del d[k]` on a unique-key dict: drop the entry with key `k`. -/
def pyDelete (d : PyDict) (k : String) : PyDict :=
  d.filter (fun p => decide (p.1 ≠ k))

/-- Python dict insertion `d[k] = v`: update in place if the key exists,
else append a new entry. -/
def pyInsert (d : PyDict) (k : String) (v : String) : PyDict :=
  if k ∈ d.map Prod.fst then
    d.map (fun p => if p.1 = k then (k, v) else p)
  else d ++ [(k, v)]

/-- Python dict built from a sequence of pairs (dict comprehension
semantics): later duplicates overwrite the value but keep the first
occurrence position. -/
def pyDictOfList (l : List (String × String)) : PyDict :=
  l.foldl (fun d p => pyInsert d p.1 p.2) []

/-- Parsed content of a source file; see the module docstring for the
reading of each constructor. -/
inductive FileData where
  | csv (rows : List (List String))
  | json (keys : List String)
deriving DecidableEq

/-- A source file: its path and its parsed content. -/
structure File where
  path : String
  data : FileData
deriving DecidableEq

/-- A pandas DataFrame, abstracted to its ordered list of column names —
the only part of it the embedded claims observe. -/
structure DataFrame where
  cols : List String
deriving DecidableEq

/-- The `read_file_config` dict of `pd.read_*` keyword arguments:
the keys the loader itself inspects (`sep`, `usecols`) are explicit,
every other option is an opaque passed-through pair. -/
structure ReadFileConfig where
  sep : Option String
  usecols : Option (List String)
  other : List (String × String)
deriving DecidableEq

/-- The empty `read_file_config` dict. -/
def ReadFileConfig.empty : ReadFileConfig := ⟨none, none, []⟩

/-- Python truthiness of the config dict: `not read_file_config`. -/
def ReadFileConfig.isEmpty (c : ReadFileConfig) : Bool :=
  c.sep.isNone && c.usecols.isNone && c.other.isEmpty

/-- Embedding of `_get_columns` (dataframe_loader.py lines 166-180).
For a `.csv` path it reads the first row via `csv.reader` and returns
`row[1:]`; the fall-through on a row-less file is Python's implicit
`None`, hence the `Option`.  For a `.json` path it returns the top-level
keys of the loaded object.  `sep` selects the delimiter; the `rows` of a
`FileData.csv` are by convention already split at the delimiter in use,
so the embedded probe does not consume it. -/
def _get_columns (file : File) (sep : String) : Option (List String) :=
  match file.data with
  | .csv rows => rows.head?.map (fun row => row.drop 1)
  | .json keys => some keys

/-- Embedding of `_get_file_type` (dataframe_loader.py lines 183-189):
suffix dispatch, resolved by the `FileData` constructor (see module
docstring); the unrecognized-suffix `ValueError` branch is outside the
embedded domain. -/
def _get_file_type (file : File) : String :=
  match file.data with
  | .csv _ => "csv"
  | .json _ => "json"

/-- The two pandas readers the loader dispatches to. -/
inductive PdMethod where
  | read_csv
  | read_json
deriving DecidableEq

/-- Embedding of `_get_pandas_load_method` (dataframe_loader.py lines
219-227). -/
def _get_pandas_load_method (file_type : String) : Except PyError PdMethod :=
  if file_type = "csv" then .ok .read_csv
  else if file_type = "json" then .ok .read_json
  else .error (.valueError ("Unable to provide pandas read_* method for file type " ++ file_type))

/-- Model of `pd.read_csv`: fails with `EmptyDataError` on a file without
rows and with a tokenizer `ParserError` when a data row has more fields
than the header; under `usecols` it validates the names against the
header (pandas `ValueError` otherwise) and keeps the header's order
restricted to the requested names. -/
def pd_read_csv (file : File) (cfg : ReadFileConfig) : Except PyError DataFrame :=
  match file.data with
  | .json _ => .error (.parserError ("Expected delimited text in " ++ file.path))
  | .csv rows =>
    match rows with
    | [] => .error (.emptyDataError "No columns to parse from file")
    | header :: body =>
      if body.all (fun r => decide (r.length ≤ header.length)) then
        match cfg.usecols with
        | none => .ok ⟨header⟩
        | some cols =>
          if cols.all (fun c => decide (c ∈ header)) then
            .ok ⟨header.filter (fun c => decide (c ∈ cols))⟩
          else .error (.valueError "Usecols do not match columns, columns expected but not found")
      else .error (.parserError "Error tokenizing data")

/-- Model of `pd.read_json`: the result's columns are the top-level keys
of the object; the parser options in `cfg` affect decoding, not the
column structure observed here (the loader never forwards `usecols` to
it, see `_load_file`). -/
def pd_read_json (file : File) (cfg : ReadFileConfig) : Except PyError DataFrame :=
  match cfg.usecols with
  | some _ => .error (.typeError "read_json got an unexpected keyword argument usecols")
  | none =>
    match file.data with
    | .json keys => .ok ⟨keys⟩
    | .csv _ => .error (.parserError ("Expected object or value in " ++ file.path))

/-- Model of pandas column selection `df[cols]`: `KeyError` when a
requested name is missing, otherwise the columns are exactly `cols` in
the requested order. -/
def DataFrame.select (df : DataFrame) (cols : List String) : Except PyError DataFrame :=
  if cols.all (fun c => decide (c ∈ df.cols)) then .ok ⟨cols⟩
  else .error (.keyError "columns not in index")

/-- Embedding of `_load_file` (dataframe_loader.py lines 192-216).  The
`assert method in [pd.read_csv, pd.read_json]` holds by the `PdMethod`
type.  An empty config dict means a bare `method(file_path)` call; a
non-empty one is passed as keyword arguments, except that for
`pd.read_json` the code first does `read_file_config.pop("usecols")` —
with no default, so a missing `usecols` key raises `KeyError` — and
applies the popped column names as a post-load projection `...[cols]`. -/
def _load_file (file : File) (method : PdMethod) (read_file_config : ReadFileConfig) :
    Except PyError DataFrame :=
  if read_file_config.isEmpty then
    match method with
    | .read_csv => pd_read_csv file ReadFileConfig.empty
    | .read_json => pd_read_json file ReadFileConfig.empty
  else
    match method with
    | .read_json =>
      match read_file_config.usecols with
      | none => .error (.keyError "usecols")
      | some cols =>
        match pd_read_json file { read_file_config with usecols := none } with
        | .error e => .error e
        | .ok df => df.select cols
    | .read_csv => pd_read_csv file read_file_config

/-- The f-string of the contract-mismatch `ValueError` raised in
`DataFramePackage.from_file` (dataframe_loader.py line 77). -/
def mismatchMsg (k : String) : String :=
  "column_descriptions key " ++ k ++ " is not in the DataFrame columns!"

/-- The `for k in column_descriptions.keys(): ...` validation loop of
`DataFramePackage.from_file` (dataframe_loader.py lines 66-78): each key
is tested for membership in the probe result; a Python `None` probe
result makes `k not in None` raise `TypeError`; the first absent key
raises the contract-mismatch `ValueError`. -/
def checkColumnDescriptions (ks : List String) (probed : Option (List String)) :
    Except PyError Unit :=
  match ks with
  | [] => .ok ()
  | k :: rest =>
    match probed with
    | none => .error (.typeError "argument of type NoneType is not iterable")
    | some cols =>
      if k ∈ cols then checkColumnDescriptions rest probed
      else .error (.valueError (mismatchMsg k))

/-- Python `str.split("/")` on the character list of a path, structurally
recursive so that concrete paths evaluate inside the kernel (the
built-in `String.splitOn` is defined by position recursion and does
not). -/
def splitOnSlash (cs : List Char) : List String :=
  match cs with
  | [] => [""]
  | c :: rest =>
    match splitOnSlash rest with
    | [] => [String.mk [c]]
    | s :: ss =>
      if c = '/' then "" :: s :: ss
      else String.mk (c :: s.data) :: ss

/-- The container built by `DataFramePackage.from_file`
(dataframe_loader.py lines 9-99).  The `_generate_dataframe_summaries`
step computes pandas-internal reports from `dataframe` alone and is not
observed by any claim, so the summary fields are not carried. -/
structure DataFramePackage where
  name : String
  file_loc : String
  dataframe : Option DataFrame
  general_description : Option String
  column_descriptions : Option PyDict
deriving DecidableEq

/-- Embedding of `DataFramePackage.from_file` (dataframe_loader.py lines
29-99), step for step: default the config dict, resolve the file type,
when a truthy `column_descriptions` dict is given validate each of its
keys against `_get_columns` (probing with the `sep` option if present,
else `","`) and set `read_file_config["usecols"]` to the key list, derive
`name`/`file_loc` from the path, then call `_load_file` and package the
result. -/
def from_file (file : File) (general_description : Option String)
    (column_descriptions : Option PyDict) (name : String)
    (read_file_config : Option ReadFileConfig) : Except PyError DataFramePackage :=
  let cfg0 : ReadFileConfig :=
    match read_file_config with
    | none => ReadFileConfig.empty
    | some c => if c.isEmpty then ReadFileConfig.empty else c
  let sep : String := cfg0.sep.getD ","
  let cdDict : PyDict := (column_descriptions.getD [])
  let validation : Except PyError Unit :=
    if cdDict.isEmpty then .ok ()
    else checkColumnDescriptions (cdDict.map Prod.fst) (_get_columns file sep)
  match validation with
  | .error e => .error e
  | .ok _ =>
    let cfg1 : ReadFileConfig :=
      if cdDict.isEmpty then cfg0
      else { cfg0 with usecols := some (cdDict.map Prod.fst) }
    let nameLoc : String × String :=
      if '/' ∈ file.path.data then
        let pieces := splitOnSlash file.path.data
        if name = "" then (pieces.getLastD "", String.intercalate "/" pieces.dropLast)
        else (name, String.intercalate "/" pieces.dropLast)
      else (name, "")
    match _get_pandas_load_method (_get_file_type file) with
    | .error e => .error e
    | .ok method =>
      match _load_file file method cfg1 with
      | .error e => .error e
      | .ok df =>
        .ok { name := nameLoc.1, file_loc := nameLoc.2, dataframe := some df,
              general_description := general_description,
              column_descriptions := column_descriptions }

/-- Whether the full pandas parse of the file succeeds under default
options: a `.csv` file needs at least a header row and no data row wider
than the header; a `.json` object file always decodes. -/
def fullParseOk (file : File) : Bool :=
  match file.data with
  | .csv [] => false
  | .csv (header :: body) => body.all (fun r => decide (r.length ≤ header.length))
  | .json _ => true

example :
    from_file ⟨"data/pets.csv", .csv [["id", "name", "pet_name"], ["1", "a", "b"]]⟩
      none (some [("name", "x"), ("pet_name", "y")]) "" none =
    .ok { name := "pets.csv", file_loc := "data", dataframe := some ⟨["name", "pet_name"]⟩,
          general_description := none,
          column_descriptions := some [("name", "x"), ("pet_name", "y")] } := by
  rfl

example :
    from_file ⟨"pets.json", .json ["name", "pet_name"]⟩
      none (some [("name", "x")]) "" none =
    .ok { name := "", file_loc := "", dataframe := some ⟨["name"]⟩,
          general_description := none,
          column_descriptions := some [("name", "x")] } := by
  rfl

/-! ## user_input.py -/

/-- The pydantic model `UserInput` (user_input.py lines 6-51): a
`general_description` string and a `column_descriptions` dict. -/
structure UserInput where
  general_description : String
  column_descriptions : PyDict
deriving DecidableEq

/-- The derived `allowed_columns` property of `UserInput` (user_input.py
lines 40-51): the keys of `column_descriptions`. -/
def UserInput.allowed_columns (u : UserInput) : List String :=
  u.column_descriptions.map Prod.fst

/-- Advisory emitted when the input dict has no `general_description`
key (user_input.py lines 91-94). -/
def generalDescriptionAdvisory : String :=
  "user_input should include key:value pair \x7bgeneral_description: ...\x7d for best results."

/-- Advisory emitted when no column keys remain in the input dict
(user_input.py line 107). -/
def noColumnsAdvisory : String :=
  "No columns detected in user input. Defaulting to all columns."

/-- Advisory emitted by the `UserInput` field validator for an empty
`column_descriptions` dict (user_input.py lines 34-37). -/
def emptyColumnDescriptionsAdvisory : String :=
  "Empty column_descriptions dictionary is not recommended."

/-- The `ValueError` message for declared columns outside the allowed
list (user_input.py lines 101-103); the Python set `diff` and the list
`allowed_columns` are interpolated into it. -/
def columnDiffMsg (diff : List String) (allowed_columns : List String) : String :=
  "Column(s) " ++ String.intercalate ", " diff ++
    " is/are declared in the provided column descriptions, but is/are not found in the provided allowed_columns arg: " ++
    String.intercalate ", " allowed_columns ++ "."

/-- The input dict after the `general_description` handling of
`user_input_safe_construct` (user_input.py lines 83-94): the key is
deleted in place when present, otherwise the dict is left as is. -/
def remainingInput (user_input : PyDict) : PyDict :=
  if (pyGet user_input "general_description").isSome then
    pyDelete user_input "general_description"
  else user_input

/-- The outcome of a `user_input_safe_construct` call: the warnings
emitted, the raised-or-returned result, and the final state of the
caller-supplied dict (the function deletes `general_description` from it
in place). -/
structure ConstructOutcome where
  warnings : List String
  result : Except PyError UserInput
  user_input_after : PyDict

/-- Embedding of `user_input_safe_construct` (user_input.py lines
54-113), step for step: read and delete (or warn about)
`general_description`; when both the allowed-column list and the
remaining keys are non-empty, raise a `ValueError` naming the set
difference and the allowed list if the difference is non-empty; warn
when no column keys remain and default `column_descriptions` to the dict
of every allowed column with an empty description (`unsafe_user_input or
\x7b...\x7d`); construct the `UserInput`, whose validator warns on an
empty dict. -/
def user_input_safe_construct (user_input : PyDict) (allowed_columns : List String) :
    ConstructOutcome :=
  let general_description := (pyGet user_input "general_description").getD ""
  let hasGd := (pyGet user_input "general_description").isSome
  let remaining := remainingInput user_input
  let warns1 : List String := if hasGd then [] else [generalDescriptionAdvisory]
  let check : Except PyError Unit :=
    if 0 < allowed_columns.length ∧ 0 < remaining.length then
      let diff := (remaining.map Prod.fst).filter (fun k => decide (k ∉ allowed_columns))
      if diff.isEmpty then .ok ()
      else .error (.valueError (columnDiffMsg diff allowed_columns))
    else .ok ()
  match check with
  | .error e => ⟨warns1, .error e, remaining⟩
  | .ok _ =>
    let warns2 := if remaining.isEmpty then warns1 ++ [noColumnsAdvisory] else warns1
    let column_descriptions :=
      if remaining.isEmpty then pyDictOfList (allowed_columns.map (fun k => (k, "")))
      else remaining
    let warns3 :=
      if column_descriptions.isEmpty then warns2 ++ [emptyColumnDescriptionsAdvisory]
      else warns2
    ⟨warns3, .ok ⟨general_description, column_descriptions⟩, remaining⟩

example :
    user_input_safe_construct [("wrong_column", "x")] ["name", "pet_name"] =
    ⟨[generalDescriptionAdvisory],
     .error (.valueError (columnDiffMsg ["wrong_column"] ["name", "pet_name"])),
     [("wrong_column", "x")]⟩ := by
  rfl

example :
    user_input_safe_construct [("general_description", "g")] ["name"] =
    ⟨[noColumnsAdvisory], .ok ⟨"g", [("name", "")]⟩, []⟩ := by
  rfl

/-! ## table.py -/

/-- Modelled from the spec: the `DiscoveryContent` class imported by
table.py from `neo4j_runway/discovery/discovery_content.py`, a module
absent from the provided sources.  Per the spec it is "an optional
nested object holding a `discovery` narrative string"; only that field
is delegated to by `Table`. -/
structure DiscoveryContent where
  discovery : String
deriving DecidableEq

/-- The `Table` container (table.py lines 9-103).  The pandas `data`
payload is carried as the abstracted `DataFrame`; the
`isinstance(data, pd.DataFrame)` constructor check holds by typing. -/
structure Table where
  name : String
  file_path : String
  data : DataFrame
  general_description : String
  data_dictionary : PyDict
  use_cases : Option (List String)
  discovery_content : Option DiscoveryContent
deriving DecidableEq

/-- The `discovery` property getter (table.py lines 83-97): the empty
string when no `discovery_content` is attached, else the nested object's
`discovery` field. -/
def Table.discovery (t : Table) : String :=
  match t.discovery_content with
  | none => ""
  | some dc => dc.discovery

/-- The `discovery` property setter (table.py lines 99-103): `assert
self.discovery_content is not None` raises `AssertionError` before any
mutation when no nested object is attached; otherwise the nested
object's `discovery` field is replaced.  The returned pair is the raised
error (if any) and the table state after the call. -/
def Table.set_discovery (t : Table) (value : String) : Except PyError Unit × Table :=
  match t.discovery_content with
  | none => (.error .assertionError, t)
  | some dc => (.ok (), { t with discovery_content := some { dc with discovery := value } })

/-! ## Helper lemmas -/

/-- The validation loop succeeds when every contract key is among the
probed columns. -/
theorem checkColumnDescriptions_ok (ks cols : List String) (h : ∀ k ∈ ks, k ∈ cols) :
    checkColumnDescriptions ks (some cols) = .ok () := by
  induction ks with
  | nil => rfl
  | cons k rest ih =>
    simp only [checkColumnDescriptions]
    rw [if_pos (h k (List.mem_cons_self _ _))]
    exact ih (fun x hx => h x (List.mem_cons_of_mem _ hx))

/-- The validation loop raises the mismatch `ValueError` for the first
contract key absent from the probed columns. -/
theorem checkColumnDescriptions_error (ks cols : List String) (k : String)
    (h : ks.find? (fun x => decide (x ∉ cols)) = some k) :
    checkColumnDescriptions ks (some cols) = .error (.valueError (mismatchMsg k)) := by
  induction ks with
  | nil => simp [List.find?] at h
  | cons a rest ih =>
    by_cases ha : a ∈ cols
    · have hd : decide (a ∉ cols) = false := by simp [ha]
      rw [List.find?_cons] at h
      simp only [hd] at h
      simp only [checkColumnDescriptions]
      rw [if_pos ha]
      exact ih h
    · have hd : decide (a ∉ cols) = true := by simp [ha]
      rw [List.find?_cons] at h
      simp only [hd] at h
      obtain rfl : a = k := Option.some.inj h
      simp only [checkColumnDescriptions]
      rw [if_neg ha]

/-- Shape of `from_file` when the contract validation loop raises: the
raised error is the overall result (the loader is not consulted). -/
theorem from_file_error_of_check (file : File) (gd : Option String) (cd : PyDict)
    (nm : String) (e : PyError) (hne : cd.isEmpty = false)
    (hchk : checkColumnDescriptions (cd.map Prod.fst) (_get_columns file ",") = .error e) :
    from_file file gd (some cd) nm none = .error e := by
  simp [from_file, ReadFileConfig.empty, hne, hchk]

/-- The `name` field derived by `from_file` from the path and the `name`
argument. -/
def inferredName (path : String) (nm : String) : String :=
  if '/' ∈ path.data then
    (if nm = "" then (splitOnSlash path.data).getLastD "" else nm)
  else nm

/-- The `file_loc` field derived by `from_file` from the path. -/
def inferredLoc (path : String) : String :=
  if '/' ∈ path.data then String.intercalate "/" (splitOnSlash path.data).dropLast
  else ""

/-- Shape of `from_file` when the contract validation loop passes and the
loader succeeds under the `usecols` restriction to the contract keys. -/
theorem from_file_ok_of (file : File) (gd : Option String) (cd : PyDict) (nm : String)
    (df : DataFrame) (method : PdMethod)
    (hne : cd.isEmpty = false)
    (hchk : checkColumnDescriptions (cd.map Prod.fst) (_get_columns file ",") = .ok ())
    (hm : _get_pandas_load_method (_get_file_type file) = .ok method)
    (hload : _load_file file method ⟨none, some (cd.map Prod.fst), []⟩ = .ok df) :
    from_file file gd (some cd) nm none =
      .ok ⟨inferredName file.path nm, inferredLoc file.path, some df, gd, some cd⟩ := by
  simp only [from_file, Option.getD, hne, hchk, hm, hload, ReadFileConfig.empty,
    Bool.false_eq_true, if_false]
  by_cases hs : '/' ∈ file.path.data <;> by_cases hn : nm = "" <;>
    simp [inferredName, inferredLoc, hs, hn]

/-- Whether the character list `needle` occurs at the start of `hay`. -/
def leadsWith (needle hay : List Char) : Bool :=
  match needle, hay with
  | [], _ => true
  | _ :: _, [] => false
  | n :: ns, h :: hs => n == h && leadsWith ns hs

/-- Whether the character list `needle` occurs contiguously anywhere in
`hay`: the "does this message name that key" test. -/
def occursIn (needle hay : List Char) : Bool :=
  match hay with
  | [] => needle.isEmpty
  | _ :: rest => leadsWith needle hay || occursIn needle rest

/-! ## Claim theorems -/

/-- C5: for a delimited-text file with at least one row the column probe
returns exactly the first row's fields with the first field removed, and
for a structured-record file whose top level is an object it returns
exactly the list of top-level keys. -/
theorem get_columns_probe_spec (p q : String) (row : List String)
    (rest : List (List String)) (ks : List String) (sep : String) :
    _get_columns ⟨p, .csv (row :: rest)⟩ sep = some (row.drop 1) ∧
    _get_columns ⟨q, .json ks⟩ sep = some ks :=
  ⟨rfl, rfl⟩

/-- C9: on a `Table` with no attached `discovery_content`, reading the
`discovery` accessor yields the empty string, and writing to it raises
`AssertionError` while leaving the table unchanged. -/
theorem table_discovery_none_spec (t : Table) (value : String)
    (h : t.discovery_content = none) :
    t.discovery = "" ∧ t.set_discovery value = (.error .assertionError, t) := by
  cases t with
  | mk nm fp data gd dd uc dc =>
    cases h
    exact ⟨rfl, rfl⟩

/-- Witness for `table_discovery_none_spec` at a concrete table. -/
theorem table_discovery_none_spec_witness :
    (⟨"pets", "data/pets.csv", ⟨["name"]⟩, "", [], none, none⟩ : Table).discovery_content
      = none ∧
    ((⟨"pets", "data/pets.csv", ⟨["name"]⟩, "", [], none, none⟩ : Table).discovery = "" ∧
      (⟨"pets", "data/pets.csv", ⟨["name"]⟩, "", [], none, none⟩ : Table).set_discovery "d" =
        (.error .assertionError,
          ⟨"pets", "data/pets.csv", ⟨["name"]⟩, "", [], none, none⟩)) :=
  ⟨rfl, table_discovery_none_spec _ "d" rfl⟩

/-- C2: a structured-record load with a parser configuration but no
column contract does not succeed: `_load_file` pops the `usecols` key
with no default, so `DataFramePackage.from_file` raises
`KeyError("usecols")` instead of passing the options through — the code
contradicts its own `read_file_config` docstring and the spec's
pass-through rule. -/
theorem json_config_without_contract_keyerror :
    from_file ⟨"pets.json", .json ["name", "pet_name"]⟩ none none ""
      (some ⟨none, none, [("orient", "records")]⟩) = .error (.keyError "usecols") := by
  rfl

/-- C1 counterexample: `id` is a real column of the file (its first CSV
column), so the contract `{id: x}` has keys inside the real column set,
yet the load is rejected — the probe drops the first header field, so
the claimed load success fails. -/
theorem first_column_contract_rejected_cex :
    from_file ⟨"pets.csv", .csv [["id", "name"], ["1", "a"]]⟩ none
      (some [("id", "x")]) "" none = .error (.valueError (mismatchMsg "id")) := by
  rfl

/-- C1 (amended): for every file that parses cleanly and every non-empty
contract whose keys are a subset of the probed columns (for CSV, the
header minus its first field), `from_file` succeeds and the loaded
table's column set equals exactly the contract's key set. -/
theorem from_file_probed_subset_ok (file : File) (cd : PyDict) (cols : List String)
    (hprobe : _get_columns file "," = some cols)
    (hne : cd ≠ [])
    (hsub : ∀ k ∈ cd.map Prod.fst, k ∈ cols)
    (hparse : fullParseOk file = true) :
    ∃ pkg df,
      from_file file none (some cd) "" none = .ok pkg ∧
      pkg.dataframe = some df ∧
      (∀ c, c ∈ df.cols ↔ c ∈ cd.map Prod.fst) := by
  have hne2 : cd.isEmpty = false := by
    cases cd with
    | nil => exact absurd rfl hne
    | cons a l => rfl
  have hchk : checkColumnDescriptions (cd.map Prod.fst) (_get_columns file ",") = .ok () := by
    rw [hprobe]
    exact checkColumnDescriptions_ok _ _ hsub
  obtain ⟨p, data⟩ := file
  cases data with
  | csv rows =>
    cases rows with
    | nil => simp [_get_columns] at hprobe
    | cons header body =>
      have hcols : cols = header.drop 1 := by
        simpa [_get_columns] using hprobe.symm
      have hragged : body.all (fun r => decide (r.length ≤ header.length)) = true := by
        simpa [fullParseOk] using hparse
      have hmem : ∀ c ∈ cd.map Prod.fst, c ∈ header := by
        intro c hcmem
        exact List.drop_subset 1 header (hcols ▸ hsub c hcmem)
      have husub : (cd.map Prod.fst).all (fun c => decide (c ∈ header)) = true := by
        rw [List.all_eq_true]
        intro c hcmem
        exact decide_eq_true (hmem c hcmem)
      have hload : _load_file ⟨p, .csv (header :: body)⟩ .read_csv
          ⟨none, some (cd.map Prod.fst), []⟩ =
          .ok ⟨header.filter (fun c => decide (c ∈ cd.map Prod.fst))⟩ := by
        simp [_load_file, ReadFileConfig.isEmpty, pd_read_csv, hragged, husub]
      refine ⟨_, _, from_file_ok_of _ none cd "" _ .read_csv hne2 hchk rfl hload, rfl, ?_⟩
      intro c
      simp only [List.mem_filter, decide_eq_true_eq]
      exact ⟨fun h => h.2, fun hc => ⟨hmem c hc, hc⟩⟩
  | json keys =>
    have hkeys : cols = keys := by
      simpa [_get_columns] using hprobe.symm
    have hsel : (cd.map Prod.fst).all (fun c => decide (c ∈ keys)) = true := by
      rw [List.all_eq_true]
      intro c hcmem
      exact decide_eq_true (hkeys ▸ hsub c hcmem)
    have hload : _load_file ⟨p, .json keys⟩ .read_json ⟨none, some (cd.map Prod.fst), []⟩ =
        .ok ⟨cd.map Prod.fst⟩ := by
      simp [_load_file, ReadFileConfig.isEmpty, pd_read_json, DataFrame.select, hsel]
    refine ⟨_, _, from_file_ok_of _ none cd "" _ .read_json hne2 hchk rfl hload, rfl, ?_⟩
    intro c
    exact Iff.rfl

/-- Witness for `from_file_probed_subset_ok` at a concrete two-row CSV
file and the contract on both probed columns. -/
theorem from_file_probed_subset_ok_witness :
    _get_columns ⟨"data/pets.csv", .csv [["id", "name", "pet_name"], ["1", "a", "b"]]⟩ ","
        = some ["name", "pet_name"] ∧
    ([("name", "x"), ("pet_name", "y")] : PyDict) ≠ [] ∧
    (∀ k ∈ ([("name", "x"), ("pet_name", "y")] : PyDict).map Prod.fst,
        k ∈ ["name", "pet_name"]) ∧
    fullParseOk ⟨"data/pets.csv", .csv [["id", "name", "pet_name"], ["1", "a", "b"]]⟩
        = true ∧
    ∃ pkg df,
      from_file ⟨"data/pets.csv", .csv [["id", "name", "pet_name"], ["1", "a", "b"]]⟩ none
          (some [("name", "x"), ("pet_name", "y")]) "" none = .ok pkg ∧
      pkg.dataframe = some df ∧
      (∀ c, c ∈ df.cols ↔ c ∈ ([("name", "x"), ("pet_name", "y")] : PyDict).map Prod.fst) :=
  ⟨rfl, by decide, by decide, rfl,
    from_file_probed_subset_ok _ _ _ rfl (by decide) (by decide) rfl⟩

/-- C3 counterexample: with contract keys `zzz1` and `zzz2` both absent
from the probed columns, the raised message names only `zzz1` — the
string for the second absent key does not occur in it. -/
theorem mismatch_error_first_key_only_cex :
    from_file ⟨"pets.csv", .csv [["id", "name"], ["1", "a"]]⟩ none
        (some [("zzz1", "d1"), ("zzz2", "d2")]) "" none =
      .error (.valueError (mismatchMsg "zzz1")) ∧
    occursIn "zzz2".data (mismatchMsg "zzz1").data = false :=
  ⟨rfl, by decide⟩

/-- C3 (amended): when the probe yields a column list and some contract
key is absent from it, `from_file` raises the contract-mismatch
`ValueError` naming the first absent key in contract declaration order
(not every absent key). -/
theorem from_file_mismatch_first_absent (file : File) (cd : PyDict) (cols : List String)
    (k : String) (gd : Option String) (nm : String)
    (hprobe : _get_columns file "," = some cols)
    (hfind : (cd.map Prod.fst).find? (fun x => decide (x ∉ cols)) = some k) :
    from_file file gd (some cd) nm none = .error (.valueError (mismatchMsg k)) := by
  have hne : cd.isEmpty = false := by
    cases cd with
    | nil => simp [List.find?] at hfind
    | cons a l => rfl
  apply from_file_error_of_check _ _ _ _ _ hne
  rw [hprobe]
  exact checkColumnDescriptions_error _ _ _ hfind

/-- Witness for `from_file_mismatch_first_absent`: the second contract
key `zzbad` is the first (and only) absent one. -/
theorem from_file_mismatch_first_absent_witness :
    _get_columns ⟨"pets.csv", .csv [["id", "name"], ["1", "a"]]⟩ "," = some ["name"] ∧
    (([("name", "x"), ("zzbad", "y")] : PyDict).map Prod.fst).find?
        (fun x => decide (x ∉ ["name"])) = some "zzbad" ∧
    from_file ⟨"pets.csv", .csv [["id", "name"], ["1", "a"]]⟩ none
        (some [("name", "x"), ("zzbad", "y")]) "" none =
      .error (.valueError (mismatchMsg "zzbad")) :=
  ⟨rfl, by decide,
    from_file_mismatch_first_absent _ _ ["name"] _ none "" rfl (by decide)⟩

/-- C4 counterexample: on a CSV file with no rows the probe returns
Python `None`, so a contract key triggers `TypeError` inside the
validation loop — not the contract-mismatch `ValueError` the claim
states (the load step is still never reached). -/
theorem empty_csv_contract_typeerror_cex :
    from_file ⟨"pets.csv", .csv []⟩ none (some [("name", "x")]) "" none =
      .error (.typeError "argument of type NoneType is not iterable") := by
  rfl

/-- C4 (amended): for a CSV file with a header row, a contract key
absent from the probed columns makes `from_file` fail with the
contract-mismatch `ValueError`, and the result is independent of the
file's data rows — even rows on which the full parse itself would fail
— so the full-table load step is never reached. -/
theorem from_file_mismatch_before_load (p : String) (header : List String)
    (body body2 : List (List String)) (cd : PyDict) (k : String)
    (hfind : (cd.map Prod.fst).find? (fun x => decide (x ∉ header.drop 1)) = some k) :
    from_file ⟨p, .csv (header :: body)⟩ none (some cd) "" none =
      .error (.valueError (mismatchMsg k)) ∧
    from_file ⟨p, .csv (header :: body)⟩ none (some cd) "" none =
      from_file ⟨p, .csv (header :: body2)⟩ none (some cd) "" none := by
  have h1 : ∀ b : List (List String),
      from_file ⟨p, .csv (header :: b)⟩ none (some cd) "" none =
        .error (.valueError (mismatchMsg k)) := by
    intro b
    have hne : cd.isEmpty = false := by
      cases cd with
      | nil => simp [List.find?] at hfind
      | cons a l => rfl
    apply from_file_error_of_check _ _ _ _ _ hne
    have hp : _get_columns ⟨p, .csv (header :: b)⟩ "," = some (header.drop 1) := rfl
    rw [hp]
    exact checkColumnDescriptions_error _ _ _ hfind
  exact ⟨h1 body, (h1 body).trans (h1 body2).symm⟩

/-- Witness for `from_file_mismatch_before_load`: the data row
`["1", "a", "X", "Y"]` is wider than the two-field header, so the full
parse of this file would itself raise a tokenizer error, yet the result
is the contract-mismatch `ValueError` (and agrees with the same file
stripped of its data rows). -/
theorem from_file_mismatch_before_load_witness :
    (([("zzbad", "d")] : PyDict).map Prod.fst).find?
        (fun x => decide (x ∉ (["id", "name"] : List String).drop 1)) = some "zzbad" ∧
    (from_file ⟨"data/pets.csv", .csv [["id", "name"], ["1", "a", "X", "Y"]]⟩ none
        (some [("zzbad", "d")]) "" none = .error (.valueError (mismatchMsg "zzbad")) ∧
      from_file ⟨"data/pets.csv", .csv [["id", "name"], ["1", "a", "X", "Y"]]⟩ none
          (some [("zzbad", "d")]) "" none =
        from_file ⟨"data/pets.csv", .csv [["id", "name"]]⟩ none
          (some [("zzbad", "d")]) "" none) :=
  ⟨by decide,
    from_file_mismatch_before_load "data/pets.csv" ["id", "name"]
      [["1", "a", "X", "Y"]] [] [("zzbad", "d")] "zzbad" (by decide)⟩

/-- C6: the per-key membership check of `from_file` always passes on a
contract whose keys are exactly the columns probed from the same file. -/
theorem probe_roundtrip_validation_ok (file : File) (sep : String) (cd : PyDict)
    (cols : List String)
    (hprobe : _get_columns file sep = some cols)
    (hkeys : cd.map Prod.fst = cols) :
    checkColumnDescriptions (cd.map Prod.fst) (_get_columns file sep) = .ok () := by
  rw [hprobe, hkeys]
  exact checkColumnDescriptions_ok _ _ (fun k hk => hk)

/-- Witness for `probe_roundtrip_validation_ok` on a concrete CSV file:
the contract is built from exactly the probed columns. -/
theorem probe_roundtrip_validation_ok_witness :
    _get_columns ⟨"pets.csv", .csv [["id", "a", "b"], ["1", "2", "3"]]⟩ ","
        = some ["a", "b"] ∧
    ([("a", ""), ("b", "")] : PyDict).map Prod.fst = ["a", "b"] ∧
    checkColumnDescriptions (([("a", ""), ("b", "")] : PyDict).map Prod.fst)
        (_get_columns ⟨"pets.csv", .csv [["id", "a", "b"], ["1", "2", "3"]]⟩ ",") = .ok () :=
  ⟨rfl, rfl, probe_roundtrip_validation_ok _ "," _ ["a", "b"] rfl rfl⟩

/-! ## Lemmas about Python dicts and `user_input_safe_construct` -/

/-- Updating the value stored at a key does not change the key list. -/
theorem map_fst_update (d : List (String × String)) (a : String) (v : String) :
    (d.map (fun p => if p.1 = a then (a, v) else p)).map Prod.fst = d.map Prod.fst := by
  induction d with
  | nil => rfl
  | cons p rest ih =>
    by_cases h : p.1 = a
    · simp [h, ih]
    · simp [h, ih]

/-- Key membership after a dict insertion. -/
theorem mem_keys_pyInsert (d : PyDict) (a v k : String) :
    k ∈ (pyInsert d a v).map Prod.fst ↔ k = a ∨ k ∈ d.map Prod.fst := by
  unfold pyInsert
  by_cases h : a ∈ d.map Prod.fst
  · rw [if_pos h, map_fst_update]
    constructor
    · exact Or.inr
    · rintro (rfl | hk)
      · exact h
      · exact hk
  · rw [if_neg h]
    simp [or_comm]

/-- Key membership after folding dict insertions over a pair list. -/
theorem mem_keys_foldl_pyInsert (l : List (String × String)) (acc : PyDict) (k : String) :
    k ∈ (l.foldl (fun d p => pyInsert d p.1 p.2) acc).map Prod.fst ↔
      k ∈ acc.map Prod.fst ∨ k ∈ l.map Prod.fst := by
  induction l generalizing acc with
  | nil => simp
  | cons p rest ih =>
    simp only [List.foldl_cons, List.map_cons, List.mem_cons]
    rw [ih, mem_keys_pyInsert]
    tauto

/-- The keys of a dict built from a pair list are the pairs' keys. -/
theorem mem_keys_pyDictOfList (l : List (String × String)) (k : String) :
    k ∈ (pyDictOfList l).map Prod.fst ↔ k ∈ l.map Prod.fst := by
  unfold pyDictOfList
  rw [mem_keys_foldl_pyInsert]
  simp

/-- Folding dict insertions over pairs whose keys are fresh and distinct
just appends them. -/
theorem foldl_pyInsert_fresh (l : List (String × String)) (acc : PyDict)
    (hfresh : ∀ p ∈ l, p.1 ∉ acc.map Prod.fst) (hnodup : (l.map Prod.fst).Nodup) :
    l.foldl (fun d p => pyInsert d p.1 p.2) acc = acc ++ l := by
  induction l generalizing acc with
  | nil => simp
  | cons p rest ih =>
    simp only [List.foldl_cons]
    have hp : p.1 ∉ acc.map Prod.fst := hfresh p (List.mem_cons_self _ _)
    have hins : pyInsert acc p.1 p.2 = acc ++ [p] := by
      unfold pyInsert
      rw [if_neg hp]
    rw [hins]
    simp only [List.map_cons, List.nodup_cons] at hnodup
    have hrest : ∀ q ∈ rest, q.1 ∉ (acc ++ [p]).map Prod.fst := by
      intro q hq
      simp only [List.map_append, List.mem_append, List.map_cons, List.map_nil,
        List.mem_singleton]
      rintro (h1 | h2)
      · exact hfresh q (List.mem_cons_of_mem _ hq) h1
      · exact hnodup.1 (h2 ▸ List.mem_map_of_mem Prod.fst hq)
    rw [ih (acc ++ [p]) hrest hnodup.2, List.append_assoc]
    rfl

/-- On a pair list with distinct keys, the dict is the list itself. -/
theorem pyDictOfList_of_nodup (l : List (String × String))
    (hnodup : (l.map Prod.fst).Nodup) : pyDictOfList l = l := by
  unfold pyDictOfList
  rw [foldl_pyInsert_fresh l [] (by simp) hnodup]
  rfl

/-- The final state of the caller's dict is the post-deletion remainder
on every exit path of `user_input_safe_construct`. -/
theorem construct_user_input_after (d : PyDict) (allowed : List String) :
    (user_input_safe_construct d allowed).user_input_after = remainingInput d := by
  simp only [user_input_safe_construct]
  split <;> rfl

/-- Lookup succeeds exactly for the keys of the dict. -/
theorem pyGet_isSome_iff (d : PyDict) (k : String) :
    (pyGet d k).isSome = true ↔ k ∈ d.map Prod.fst := by
  unfold pyGet
  cases hf : d.find? (fun p => decide (p.1 = k)) with
  | none =>
    simp only [Option.map_none', Option.isSome_none, Bool.false_eq_true, false_iff]
    intro hk
    obtain ⟨p, hp, hpk⟩ := List.mem_map.mp hk
    have := List.find?_eq_none.mp hf p hp
    simp [hpk] at this
  | some p =>
    simp only [Option.map_some', Option.isSome_some, true_iff]
    have hpk : p.1 = k := by
      have := List.find?_some hf
      simpa using this
    exact hpk ▸ List.mem_map_of_mem Prod.fst (List.mem_of_find?_eq_some hf)

/-- Pairing every element with the empty string and projecting back is
the identity on the key list. -/
theorem map_fst_pair_empty (l : List String) :
    (l.map (fun k => (k, ""))).map Prod.fst = l := by
  induction l with
  | nil => rfl
  | cons a t ih => simp only [List.map_cons, ih]

/-- C7: with a non-empty allowed-column list and a non-empty remaining
mapping, `user_input_safe_construct` raises a `ValueError` exactly when
some remaining key is outside the allowed list, and the raised error
carries the message built from the offending keys and the allowed
list. -/
theorem user_input_mismatch_iff (d : PyDict) (allowed : List String)
    (hallow : allowed ≠ []) (hrem : remainingInput d ≠ []) :
    ((∃ e, (user_input_safe_construct d allowed).result = .error e) ↔
      ∃ k ∈ (remainingInput d).map Prod.fst, k ∉ allowed) ∧
    (∀ e, (user_input_safe_construct d allowed).result = .error e →
      e = .valueError (columnDiffMsg
        (((remainingInput d).map Prod.fst).filter (fun k => decide (k ∉ allowed)))
        allowed)) := by
  have hlen1 : 0 < allowed.length := List.length_pos.mpr hallow
  have hlen2 : 0 < (remainingInput d).length := List.length_pos.mpr hrem
  by_cases hdiff :
      ((remainingInput d).map Prod.fst).filter (fun k => decide (k ∉ allowed)) = []
  · have hok : ∃ u, (user_input_safe_construct d allowed).result = .ok u := by
      simp only [user_input_safe_construct]
      rw [if_pos ⟨hlen1, hlen2⟩]
      have hempty : (((remainingInput d).map Prod.fst).filter
          (fun k => decide (k ∉ allowed))).isEmpty = true := by
        rw [hdiff]
        rfl
      rw [if_pos hempty]
      exact ⟨_, rfl⟩
    obtain ⟨u, hu⟩ := hok
    constructor
    · constructor
      · rintro ⟨e, he⟩
        rw [hu] at he
        cases he
      · rintro ⟨k, hk, hkn⟩
        have : k ∈ ((remainingInput d).map Prod.fst).filter
            (fun k => decide (k ∉ allowed)) :=
          List.mem_filter.mpr ⟨hk, decide_eq_true hkn⟩
        rw [hdiff] at this
        cases this
    · intro e he
      rw [hu] at he
      cases he
  · have hres : (user_input_safe_construct d allowed).result =
        .error (.valueError (columnDiffMsg
          (((remainingInput d).map Prod.fst).filter (fun k => decide (k ∉ allowed)))
          allowed)) := by
      simp only [user_input_safe_construct]
      rw [if_pos ⟨hlen1, hlen2⟩]
      have hempty : (((remainingInput d).map Prod.fst).filter
          (fun k => decide (k ∉ allowed))).isEmpty = false := by
        cases hc : ((remainingInput d).map Prod.fst).filter
            (fun k => decide (k ∉ allowed)) with
        | nil => exact absurd hc hdiff
        | cons a l => rfl
      rw [hempty]
      rfl
    constructor
    · constructor
      · intro _
        obtain ⟨k, hk⟩ := List.exists_mem_of_ne_nil _ hdiff
        have hk2 := List.mem_filter.mp hk
        exact ⟨k, hk2.1, of_decide_eq_true hk2.2⟩
      · intro _
        exact ⟨_, hres⟩
    · intro e he
      rw [hres] at he
      exact (Except.error.inj he).symm

/-- Witness for `user_input_mismatch_iff` at the spec's own example:
`{wrong_column: x}` against allowed columns `[name, pet_name]`. -/
theorem user_input_mismatch_iff_witness :
    (["name", "pet_name"] : List String) ≠ [] ∧
    remainingInput [("wrong_column", "x")] ≠ [] ∧
    (((∃ e, (user_input_safe_construct [("wrong_column", "x")]
          ["name", "pet_name"]).result = .error e) ↔
        ∃ k ∈ (remainingInput [("wrong_column", "x")]).map Prod.fst,
          k ∉ (["name", "pet_name"] : List String)) ∧
      (∀ e, (user_input_safe_construct [("wrong_column", "x")]
          ["name", "pet_name"]).result = .error e →
        e = .valueError (columnDiffMsg
          (((remainingInput [("wrong_column", "x")]).map Prod.fst).filter
            (fun k => decide (k ∉ (["name", "pet_name"] : List String))))
          ["name", "pet_name"]))) :=
  ⟨by decide, by decide, user_input_mismatch_iff _ _ (by decide) (by decide)⟩

/-- C8 counterexample: with an empty remaining mapping and the
duplicated allowed list `[a, a]`, the dict comprehension collapses the
duplicate, so `allowed_columns` is `[a]`, not the given list. -/
theorem construct_empty_dup_allowed_cex :
    (user_input_safe_construct [] ["a", "a"]).result = .ok ⟨"", [("a", "")]⟩ ∧
    UserInput.allowed_columns ⟨"", [("a", "")]⟩ ≠ ["a", "a"] :=
  ⟨rfl, by decide⟩

/-- C8 (amended): with an empty remaining mapping, the advisory is
emitted and `column_descriptions` defaults to the Python dict of every
allowed column with an empty description — so its key set equals the
allowed-column set, and `allowed_columns` equals the allowed-column list
whenever that list has no duplicate names. -/
theorem construct_empty_defaults (d : PyDict) (allowed : List String)
    (hrem : remainingInput d = []) :
    noColumnsAdvisory ∈ (user_input_safe_construct d allowed).warnings ∧
    ∃ u : UserInput,
      (user_input_safe_construct d allowed).result = .ok u ∧
      u.column_descriptions = pyDictOfList (allowed.map (fun k => (k, ""))) ∧
      (∀ c, c ∈ u.allowed_columns ↔ c ∈ allowed) ∧
      (allowed.Nodup → u.allowed_columns = allowed) := by
  have hcond : ¬ (0 < allowed.length ∧ 0 < (remainingInput d).length) := by
    rw [hrem]
    simp
  constructor
  · simp only [user_input_safe_construct]
    rw [if_neg hcond]
    simp only [hrem, List.isEmpty_nil, if_true]
    split_ifs <;> simp
  · refine ⟨⟨(pyGet d "general_description").getD "",
      pyDictOfList (allowed.map (fun k => (k, "")))⟩, ?_, rfl, ?_, ?_⟩
    · simp only [user_input_safe_construct]
      rw [if_neg hcond]
      simp only [hrem, List.isEmpty_nil, if_true]
    · intro c
      simp only [UserInput.allowed_columns, mem_keys_pyDictOfList,
        map_fst_pair_empty]
    · intro hnd
      have hl : (allowed.map (fun k => (k, ""))).map Prod.fst = allowed :=
        map_fst_pair_empty allowed
      simp only [UserInput.allowed_columns]
      rw [pyDictOfList_of_nodup _ (by rw [hl]; exact hnd), hl]

/-- Witness for `construct_empty_defaults`: the mapping holds only a
`general_description`, the allowed columns are `[name, pet_name]`. -/
theorem construct_empty_defaults_witness :
    remainingInput [("general_description", "g")] = [] ∧
    (noColumnsAdvisory ∈ (user_input_safe_construct [("general_description", "g")]
        ["name", "pet_name"]).warnings ∧
      ∃ u : UserInput,
        (user_input_safe_construct [("general_description", "g")]
          ["name", "pet_name"]).result = .ok u ∧
        u.column_descriptions =
          pyDictOfList ((["name", "pet_name"] : List String).map (fun k => (k, ""))) ∧
        (∀ c, c ∈ u.allowed_columns ↔ c ∈ (["name", "pet_name"] : List String)) ∧
        ((["name", "pet_name"] : List String).Nodup →
          u.allowed_columns = ["name", "pet_name"])) :=
  ⟨by decide, construct_empty_defaults _ _ (by decide)⟩

/-- C10: when the caller's mapping contains the `general_description`
key, `user_input_safe_construct` deletes that entry from the caller's
dict in place — afterwards the dict equals the remainder without that
key, no longer contains the key, keeps every other entry, and differs
from its original state. -/
theorem construct_deletes_general_description (d : PyDict) (allowed : List String)
    (hnodup : (d.map Prod.fst).Nodup)
    (hmem : "general_description" ∈ d.map Prod.fst) :
    (user_input_safe_construct d allowed).user_input_after =
        pyDelete d "general_description" ∧
    "general_description" ∉
        ((user_input_safe_construct d allowed).user_input_after).map Prod.fst ∧
    (∀ p ∈ d, p.1 ≠ "general_description" →
        p ∈ (user_input_safe_construct d allowed).user_input_after) ∧
    (user_input_safe_construct d allowed).user_input_after ≠ d := by
  have hsome : (pyGet d "general_description").isSome = true :=
    (pyGet_isSome_iff d _).mpr hmem
  have hafter : (user_input_safe_construct d allowed).user_input_after =
      pyDelete d "general_description" := by
    rw [construct_user_input_after, remainingInput, if_pos hsome]
  refine ⟨hafter, ?_, ?_, ?_⟩
  · rw [hafter]
    intro hk
    obtain ⟨p, hp, hpk⟩ := List.mem_map.mp hk
    unfold pyDelete at hp
    have := (List.mem_filter.mp hp).2
    simp [hpk] at this
  · intro p hp hne
    rw [hafter]
    unfold pyDelete
    exact List.mem_filter.mpr ⟨hp, decide_eq_true hne⟩
  · rw [hafter]
    intro heq
    obtain ⟨p, hp, hpk⟩ := List.mem_map.mp hmem
    have hp2 : p ∈ pyDelete d "general_description" := heq.symm ▸ hp
    unfold pyDelete at hp2
    have := (List.mem_filter.mp hp2).2
    simp [hpk] at this

/-- Witness for `construct_deletes_general_description` on a dict with a
`general_description` entry and one column entry. -/
theorem construct_deletes_general_description_witness :
    (([("general_description", "g"), ("name", "n")] : PyDict).map Prod.fst).Nodup ∧
    "general_description" ∈
      ([("general_description", "g"), ("name", "n")] : PyDict).map Prod.fst ∧
    ((user_input_safe_construct [("general_description", "g"), ("name", "n")]
        ["name"]).user_input_after =
        pyDelete [("general_description", "g"), ("name", "n")] "general_description" ∧
      "general_description" ∉
        ((user_input_safe_construct [("general_description", "g"), ("name", "n")]
          ["name"]).user_input_after).map Prod.fst ∧
      (∀ p ∈ ([("general_description", "g"), ("name", "n")] : PyDict),
        p.1 ≠ "general_description" →
          p ∈ (user_input_safe_construct [("general_description", "g"), ("name", "n")]
            ["name"]).user_input_after) ∧
      (user_input_safe_construct [("general_description", "g"), ("name", "n")]
        ["name"]).user_input_after ≠ [("general_description", "g"), ("name", "n")]) :=
  ⟨by decide, by decide,
    construct_deletes_general_description _ ["name"] (by decide) (by decide)⟩

end Runway
